import Mathlib

/-!
Shallow embedding of `src/azureFunctions/azureFunctionsService.ts`
(class `AzureFunctionsService`) of the vscode-mssql repository.

The class wraps a language-service client and the vscode host; all external
collaborators (workspace-folder lookup, the file glob, `fs.promises.stat`,
path resolution, quick picks, input boxes, and the two remote request
exchanges) are modelled as components of an explicit environment `Env`.
A `vscode.Uri` is modelled by its `fsPath` string; `undefined` arguments are
modelled by `Option`; a thrown JavaScript error is modelled by
`Except.error` carrying the error code or message.  The path arithmetic
(`path.join`, `path.posix.join`, `path.dirname`) is modelled for the posix
separator convention used throughout the source's own tests.
-/

set_option autoImplicit false

namespace AzureFunctionsService

/-- Source line 14: `export const hostFileName: string = 'host.json';` -/
def hostFileName : String := "host.json"

/-- Model of a Node `fs.Stats` object: the only observation the source makes
is `stats.isFile()`. -/
structure Stats where
  isFile : Bool
deriving DecidableEq, Repr

/-- Outcome of `fs.promises.stat`: either a `fs.Stats` object or a rejection
carrying an error code (`e.code`), e.g. `ENOENT` or `EACCES`. -/
inductive StatResult where
  | stats (s : Stats)
  | err (code : String)
deriving DecidableEq, Repr

/-- Response of the `GetAzureFunctionsRequest` remote exchange. -/
structure GetAzureFunctionsResult where
  success : Bool
  azureFunctions : List String
  errorMessage : String
deriving DecidableEq, Repr

/-- Response of the `InsertSqlBindingRequest` remote exchange. -/
structure InsertSqlBindingResult where
  success : Bool
  errorMessage : String
deriving DecidableEq, Repr

/-- `BindingType` from `models/contracts/azureFunctions/azureFunctionsRequest`. -/
inductive BindingType where
  | input
  | output
deriving DecidableEq, Repr

/-- `InsertSqlBindingParams` from the contracts module: the payload of the
insert exchange (source lines 113-119). -/
structure InsertSqlBindingParams where
  filePath : String
  functionName : String
  objectName : String
  bindingType : BindingType
  connectionStringSetting : String
deriving DecidableEq, Repr

/-- The host environment the service runs against, one field per external
collaborator.  `getWorkspaceFolder` maps a file path to the enclosing
workspace folder's `fsPath` (or `none`); `globFiles` is the fast-glob call;
`stat` is `fs.promises.stat`; `pathResolve` is the
`p => vscode.Uri.file(path.resolve(p)).fsPath` conversion of a glob result
back to a platform-native path; the `pick...` and `input...` fields are the
values the quick picks and input boxes resolve to (`none` = dismissed); the
two `...Result` fields are the responses the remote service would return. -/
structure Env where
  getWorkspaceFolder : String → Option String
  globFiles : String → List String
  stat : String → StatResult
  pathResolve : String → String
  activeTextEditorUri : Option String
  pickBindingType : Option String
  pickFunctionName : Option String
  inputObjectName : Option String
  inputConnectionStringSetting : Option String
  getAzureFunctionsResult : GetAzureFunctionsResult
  insertSqlBindingResult : InsertSqlBindingResult

/-- Node `path.join(a, b)` for the posix separator. -/
def pathJoin (a b : String) : String := a ++ "/" ++ b

/-- Node `path.posix.join(a, b)` for the roots used here (no trailing
separator on `a`). -/
def posixJoin (a b : String) : String := a ++ "/" ++ b

/-- Split a character list at every `/`. -/
def splitSlashes : List Char → List (List Char)
  | [] => [[]]
  | c :: cs =>
      let rest := splitSlashes cs
      if c = '/' then [] :: rest
      else
        match rest with
        | [] => [[c]]
        | seg :: segs => (c :: seg) :: segs

/-- Re-join path segments with `/`. -/
def joinSlashes : List (List Char) → List Char
  | [] => []
  | [s] => s
  | s :: rest => s ++ '/' :: joinSlashes rest

/-- Node `path.dirname` for posix paths. -/
def dirname (p : String) : String :=
  let parts := splitSlashes p.data
  if parts.length ≤ 1 then "."
  else
    let init := parts.dropLast
    if init = [[]] then "/" else ⟨joinSlashes init⟩

/-- Source line 138: `folder.uri.fsPath.replace(/\\/g, '/')` — every
backslash becomes a forward slash. -/
def replaceBackslashes (s : String) : String :=
  ⟨s.data.map (fun c => if c = '\\' then '/' else c)⟩

/-- Glob-special characters escaped by fast-glob. -/
def globSpecialChars : List Char := ['(', ')', '[', ']', '{', '}', '*', '?', '|']

/-- Modelled from the library fast-glob (not part of this repository):
`escapePath` prefixes each glob-special character with a backslash. -/
def escapePath (s : String) : String :=
  ⟨(s.data.map (fun c => if c ∈ globSpecialChars then ['\\', c] else [c])).flatten⟩

/-- Source lines 138-142: the glob filter
`path.posix.join(glob.escapePath(root.replace(/\\/g, '/')), '**', '*.csproj')`. -/
def projFilter (folderPath : String) : String :=
  posixJoin (posixJoin (escapePath (replaceBackslashes folderPath)) "**") "*.csproj"

/-- Source line 145: the candidate project files — the glob results, each
converted back to a platform-native path via
`vscode.Uri.file(path.resolve(p))`. -/
def projectFiles (env : Env) (folderPath : String) : List String :=
  (env.globFiles (projFilter folderPath)).map env.pathResolve

/-- Source lines 181-192, `getFileStatus`: stat the path; an `ENOENT`
rejection maps to `undefined`, any other rejection is re-thrown. -/
def getFileStatus (env : Env) (filePath : String) : Except String (Option Stats) :=
  match env.stat filePath with
  | .stats s => .ok (some s)
  | .err code => if code = "ENOENT" then .ok none else .error code

/-- Source lines 176-179, `fileExist`: `stats ? stats.isFile() : false`
(a `fs.Stats` object is truthy, `undefined` is falsy). -/
def fileExist (env : Env) (filePath : String) : Except String Bool :=
  match getFileStatus env filePath with
  | .ok (some stats) => .ok stats.isFile
  | .ok none => .ok false
  | .error e => .error e

/-- Source lines 172-174, `isFunctionProject`: does `folderPath/host.json`
exist as a regular file. -/
def isFunctionProject (env : Env) (folderPath : String) : Except String Bool :=
  fileExist env (pathJoin folderPath hostFileName)

/-- Source line 152: the loop condition `if (this.isFunctionProject(p.fsPath))`
is NOT awaited, so in JavaScript it evaluates to a Promise object, and every
object is truthy — the condition is true whatever the promise would resolve
to (and even if it would reject). -/
def promiseTruthy (_promise : Except String Bool) : Bool := true

/-- Source lines 150-155: the `for (const p of projectFiles)` loop of the
more-than-one-candidate branch.  The condition applies `isFunctionProject`
to `p.fsPath` itself (not to its directory) and does not await it. -/
def findFirstFunctionsProject (env : Env) : List String → Option String
  | [] => none
  | p :: ps =>
      if promiseTruthy (isFunctionProject env p) then some p
      else findFirstFunctionsProject env ps

/-- Source lines 133-169, `getFunctionsProject`.  When the workspace-folder
lookup yields `undefined`, the property access `folder.uri` throws a
TypeError before any filesystem access.  Otherwise the candidates are
globbed; with more than one candidate the (un-awaited) marker loop runs;
with zero candidates the result is `undefined`; with exactly one candidate
`isFunctionProject` IS awaited on the candidate's directory (so a
non-ENOENT stat error propagates) but its boolean result is ignored and the
candidate returned. -/
def getFunctionsProject (env : Env) (file : String) : Except String (Option String) :=
  match env.getWorkspaceFolder file with
  | none => .error "TypeError: cannot read property uri of undefined"
  | some folderPath =>
      let candidates := projectFiles env folderPath
      if candidates.length > 1 then
        .ok (findFirstFunctionsProject env candidates)
      else if candidates.length = 0 then
        .ok none
      else
        match isFunctionProject env (dirname (candidates.headD "")) with
        | .error e => .error e
        | .ok _isFuncProject => .ok (some (candidates.headD ""))

/-- Source lines 26-47, `getAzureFunctions`: a falsy uri short-circuits to
the empty list without touching the remote exchange; otherwise a failure
response is thrown as an error carrying the response's message. -/
def getAzureFunctions (env : Env) (uri : Option String) : Except String (List String) :=
  match uri with
  | none => .ok []
  | some _filePath =>
      let result := env.getAzureFunctionsResult
      if result.success then .ok result.azureFunctions
      else .error result.errorMessage

/-- JavaScript falsiness of a possibly-undefined string: `undefined` and the
empty string are falsy (the `!azureFunctionName` style checks). -/
def falsyStr : Option String → Bool
  | none => true
  | some s => decide (s = "")

/-- Observable outcome of a completed `insertSqlInputBinding` call: whether
the insert exchange was issued (and with which params), and the error
messages surfaced to the user via `showErrorMessage`. -/
structure InsertOutcome where
  insertRequestSent : Option InsertSqlBindingParams
  errorMessagesShown : List String
deriving DecidableEq, Repr

/-- Source lines 56-130, the body of `insertSqlInputBinding` once the uri is
resolved.  Line 57: `getFunctionsProject` is called
but neither awaited nor used.  Lines 62-65: the binding-type quick pick; its
label is read with `?.` so dismissal yields `undefined` and the flow
continues.  Line 70: `getAzureFunctions` is awaited, so its throw
propagates.  Lines 73-76: an empty function list shows an error message and
returns.  Lines 89-111: a falsy function name, object name, or
connection-string setting returns silently.  Lines 113-121: the params are
built (`bindingType` is `input` iff the picked label was `input`, otherwise
`output`) and the insert exchange is issued.  Lines 127-129: a failure
response only shows its message. -/
def insertSqlInputBindingResolved (env : Env) (uri : String) :
    Except String InsertOutcome :=
      let _functionsProject := getFunctionsProject env uri
      let selectedBinding := env.pickBindingType
      match getAzureFunctions env (some uri) with
      | .error e => .error e
      | .ok azureFunctions =>
          if azureFunctions.length = 0 then
            .ok { insertRequestSent := none
                  errorMessagesShown := ["No Azure functions in the current file"] }
          else
            let azureFunctionName := env.pickFunctionName
            if falsyStr azureFunctionName then
              .ok { insertRequestSent := none, errorMessagesShown := [] }
            else
              let objectName := env.inputObjectName
              if falsyStr objectName then
                .ok { insertRequestSent := none, errorMessagesShown := [] }
              else
                let connectionStringSetting := env.inputConnectionStringSetting
                if falsyStr connectionStringSetting then
                  .ok { insertRequestSent := none, errorMessagesShown := [] }
                else
                  let params : InsertSqlBindingParams :=
                    { filePath := uri
                      functionName := azureFunctionName.getD ""
                      objectName := objectName.getD ""
                      bindingType :=
                        if selectedBinding = some "input" then .input else .output
                      connectionStringSetting := connectionStringSetting.getD "" }
                  let result := env.insertSqlBindingResult
                  .ok { insertRequestSent := some params
                        errorMessagesShown :=
                          if result.success then [] else [result.errorMessage] }

/-- Source lines 49-54: with a falsy `uri` argument the command falls back to
`vscode.window.activeTextEditor.document.uri` (a property access that throws
a TypeError when there is no active editor), then the resolved flow runs. -/
def insertSqlInputBinding (env : Env) (uriArg : Option String) :
    Except String InsertOutcome :=
  match uriArg with
  | some u => insertSqlInputBindingResolved env u
  | none =>
      match env.activeTextEditorUri with
      | some u => insertSqlInputBindingResolved env u
      | none => .error "TypeError: cannot read document of undefined"

/-! Concrete environments used by the witnesses and counterexamples below. -/

/-- A quiet host: workspace folder `/ws`, empty filesystem (every stat is
`ENOENT`), no glob matches, every prompt dismissed, successful remote
responses. -/
def baseEnv : Env :=
  { getWorkspaceFolder := fun _ => some "/ws"
    globFiles := fun _ => []
    stat := fun _ => .err "ENOENT"
    pathResolve := fun p => p
    activeTextEditorUri := none
    pickBindingType := none
    pickFunctionName := none
    inputObjectName := none
    inputConnectionStringSetting := none
    getAzureFunctionsResult := { success := true, azureFunctions := [], errorMessage := "" }
    insertSqlBindingResult := { success := true, errorMessage := "" } }

/-- The end-to-end scenario of the spec: candidates `/ws/a/Foo.csproj`
(no `host.json` beside it) and `/ws/b/Bar.csproj` with `/ws/b/host.json`
present as a regular file. -/
def markerScenarioEnv : Env :=
  { baseEnv with
    globFiles := fun f =>
      if f = projFilter "/ws" then ["/ws/a/Foo.csproj", "/ws/b/Bar.csproj"] else []
    stat := fun p => if p = "/ws/b/host.json" then .stats ⟨true⟩ else .err "ENOENT" }

/-- Two candidates and no `host.json` anywhere in the workspace. -/
def noMarkerAnywhereEnv : Env :=
  { markerScenarioEnv with stat := fun _ => .err "ENOENT" }

/-- A filesystem whose every stat yields a regular file. -/
def allFilesEnv : Env :=
  { baseEnv with stat := fun _ => .stats ⟨true⟩ }

/-- A filesystem whose every stat is rejected with a permission error. -/
def deniedEnv : Env :=
  { baseEnv with stat := fun _ => .err "EACCES" }

/-- A workspace with exactly one candidate `/ws/app/App.csproj` and no
`host.json` anywhere. -/
def singleNoMarkerEnv : Env :=
  { baseEnv with
    globFiles := fun f => if f = projFilter "/ws" then ["/ws/app/App.csproj"] else [] }

/-- A workspace with exactly one candidate `/ws/app/App.csproj` and
`/ws/app/host.json` present as a regular file. -/
def singleWithMarkerEnv : Env :=
  { singleNoMarkerEnv with
    stat := fun p => if p = "/ws/app/host.json" then .stats ⟨true⟩ else .err "ENOENT" }

/-- A host that cannot resolve any workspace folder. -/
def noWorkspaceEnv : Env :=
  { baseEnv with getWorkspaceFolder := fun _ => none }

/-- All prompts answered (`F`, `T`, `CS`) except the binding-type quick
pick, which is dismissed; the file lists one function `F`. -/
def cancelledBindingPickEnv : Env :=
  { baseEnv with
    pickBindingType := none
    pickFunctionName := some "F"
    inputObjectName := some "T"
    inputConnectionStringSetting := some "CS"
    getAzureFunctionsResult := { success := true, azureFunctions := ["F"], errorMessage := "" } }

/-- All prompts answered (`GetPets`, `dbo.pets`, `SqlConnectionString`) but
the binding-type quick pick dismissed; the file lists one function. -/
def cancelledBindingPickEnv2 : Env :=
  { baseEnv with
    pickBindingType := none
    pickFunctionName := some "GetPets"
    inputObjectName := some "dbo.pets"
    inputConnectionStringSetting := some "SqlConnectionString"
    getAzureFunctionsResult :=
      { success := true, azureFunctions := ["GetPets"], errorMessage := "" } }

/-- A remote listing exchange that reports failure with message `boom`. -/
def failingListingEnv : Env :=
  { baseEnv with
    getAzureFunctionsResult := { success := false, azureFunctions := [], errorMessage := "boom" } }

/-- Every prompt answered, binding type `input` picked, and an insert
exchange that reports failure with message `nope`. -/
def failingInsertEnv : Env :=
  { baseEnv with
    pickBindingType := some "input"
    pickFunctionName := some "F"
    inputObjectName := some "T"
    inputConnectionStringSetting := some "CS"
    getAzureFunctionsResult := { success := true, azureFunctions := ["F"], errorMessage := "" }
    insertSqlBindingResult := { success := false, errorMessage := "nope" } }

/-- Every prompt answered and the function-name pick dismissed. -/
def cancelledFunctionPickEnv : Env :=
  { baseEnv with
    pickBindingType := some "input"
    pickFunctionName := none
    inputObjectName := some "T"
    inputConnectionStringSetting := some "CS"
    getAzureFunctionsResult := { success := true, azureFunctions := ["F"], errorMessage := "" } }

/-! Helper lemmas shared by the claim theorems. -/

/-- `isFunctionProject` in terms of the single stat it performs. -/
theorem isFunctionProject_eq_stat (env : Env) (D : String) :
    isFunctionProject env D =
      match env.stat (pathJoin D hostFileName) with
      | .stats s => .ok s.isFile
      | .err code => if code = "ENOENT" then .ok false else .error code := by
  unfold isFunctionProject fileExist getFileStatus
  cases h : env.stat (pathJoin D hostFileName) with
  | stats s => simp
  | err code => by_cases hc : code = "ENOENT" <;> simp [hc]

/-- When the stat of `D/host.json` does not reject with a non-`ENOENT`
error, `isFunctionProject` completes with some boolean. -/
theorem isFunctionProject_ok_of_stat
    (env : Env) (D : String)
    (h : ∀ code, env.stat (pathJoin D hostFileName) = .err code → code = "ENOENT") :
    ∃ b, isFunctionProject env D = .ok b := by
  rw [isFunctionProject_eq_stat]
  cases hs : env.stat (pathJoin D hostFileName) with
  | stats s => exact ⟨s.isFile, rfl⟩
  | err code => simp [h code hs]

/-- The un-awaited marker loop returns the head of a non-empty list. -/
theorem findFirstFunctionsProject_cons (env : Env) (p : String) (ps : List String) :
    findFirstFunctionsProject env (p :: ps) = some p := rfl

/-- Whatever the marker loop returns was one of the candidates. -/
theorem findFirstFunctionsProject_mem (env : Env) (l : List String) (x : String)
    (h : findFirstFunctionsProject env l = some x) : x ∈ l := by
  cases l with
  | nil => simp [findFirstFunctionsProject] at h
  | cons p ps =>
      rw [findFirstFunctionsProject_cons] at h
      cases h
      exact List.mem_cons_self _ _

/-- A string-valued prompt that is not falsy defaults to itself, which is
non-empty. -/
theorem getD_ne_empty_of_falsyStr_false (x : Option String) (h : falsyStr x = false) :
    x.getD "" ≠ "" := by
  cases x with
  | none => simp [falsyStr] at h
  | some s =>
      simp only [falsyStr, decide_eq_false_iff_not] at h
      simpa using h

/-- A successful `insertSqlInputBinding` run is a successful run of the
resolved flow at some uri. -/
theorem insertSqlInputBinding_ok_elim (env : Env) (uriArg : Option String)
    (outcome : InsertOutcome)
    (hok : insertSqlInputBinding env uriArg = .ok outcome) :
    ∃ uri, insertSqlInputBindingResolved env uri = .ok outcome := by
  unfold insertSqlInputBinding at hok
  rcases uriArg with _ | u
  · rcases h : env.activeTextEditorUri with _ | u <;> rw [h] at hok
    · exact absurd hok (by simp)
    · exact ⟨u, hok⟩
  · exact ⟨u, hok⟩

/-- If the resolved flow completed with the insert exchange issued, then the
function-name, object-name, and connection-string prompts were all
non-falsy, and the params are exactly the prompt values with the binding
type resolved from the binding-type pick. -/
theorem insertResolved_sent (env : Env) (uri : String) (outcome : InsertOutcome)
    (params : InsertSqlBindingParams)
    (hok : insertSqlInputBindingResolved env uri = .ok outcome)
    (hsent : outcome.insertRequestSent = some params) :
    falsyStr env.pickFunctionName = false
    ∧ falsyStr env.inputObjectName = false
    ∧ falsyStr env.inputConnectionStringSetting = false
    ∧ params =
      { filePath := uri
        functionName := env.pickFunctionName.getD ""
        objectName := env.inputObjectName.getD ""
        bindingType :=
          if env.pickBindingType = some "input" then BindingType.input
          else BindingType.output
        connectionStringSetting := env.inputConnectionStringSetting.getD "" } := by
  simp only [insertSqlInputBindingResolved] at hok
  split at hok
  · exact absurd hok (by simp)
  · split at hok
    · injection hok with h; subst h; simp at hsent
    · split at hok
      · injection hok with h; subst h; simp at hsent
      · split at hok
        · injection hok with h; subst h; simp at hsent
        · split at hok
          · injection hok with h; subst h; simp at hsent
          · injection hok with h
            subst h
            simp only [Option.some.injEq] at hsent
            subst hsent
            refine ⟨by simp_all, by simp_all, by simp_all, rfl⟩

/-- When the listing succeeds with a non-empty list and the three gating
prompts are all answered, the resolved flow issues the insert exchange and
surfaces a failure message exactly when the insert response failed. -/
theorem insertResolved_eval (env : Env) (uri : String)
    (hsucc : env.getAzureFunctionsResult.success = true)
    (hne : env.getAzureFunctionsResult.azureFunctions.length ≠ 0)
    (hf : falsyStr env.pickFunctionName = false)
    (ho : falsyStr env.inputObjectName = false)
    (hc : falsyStr env.inputConnectionStringSetting = false) :
    insertSqlInputBindingResolved env uri =
      .ok { insertRequestSent := some
              { filePath := uri
                functionName := env.pickFunctionName.getD ""
                objectName := env.inputObjectName.getD ""
                bindingType :=
                  if env.pickBindingType = some "input" then BindingType.input
                  else BindingType.output
                connectionStringSetting := env.inputConnectionStringSetting.getD "" }
            errorMessagesShown :=
              if env.insertSqlBindingResult.success then []
              else [env.insertSqlBindingResult.errorMessage] } := by
  unfold insertSqlInputBindingResolved getAzureFunctions
  simp [hsucc, hne, hf, ho, hc]

/-! Claim theorems. -/

/-- C1: with the two candidates `/ws/a/Foo.csproj` and `/ws/b/Bar.csproj`
and a `host.json` only beside the second, `getFunctionsProject` returns the
FIRST candidate `/ws/a/Foo.csproj` — not `/ws/b/Bar.csproj` as the claim
states — because the loop condition is an un-awaited Promise (truthy no
matter what) applied to the candidate file itself instead of its directory;
with no `host.json` anywhere it still returns the first candidate instead
of the claimed absent result. -/
theorem c1_multi_candidate_first_returned_unconditionally :
    getFunctionsProject markerScenarioEnv "/ws/b/f.cs" = .ok (some "/ws/a/Foo.csproj")
    ∧ getFunctionsProject noMarkerAnywhereEnv "/ws/b/f.cs" = .ok (some "/ws/a/Foo.csproj") :=
  ⟨rfl, rfl⟩

/-- C3: for every directory `D`, `isFunctionProject D` returns false when
the stat of `D/host.json` rejects with `ENOENT`, returns true when
`D/host.json` is a regular file, and re-raises any other stat error (such
as a permission error) instead of swallowing it. -/
theorem c3_isFunctionProject_stat_cases (env : Env) (D : String) :
    (env.stat (pathJoin D hostFileName) = .err "ENOENT" →
      isFunctionProject env D = .ok false)
    ∧ (∀ s : Stats, env.stat (pathJoin D hostFileName) = .stats s → s.isFile = true →
        isFunctionProject env D = .ok true)
    ∧ (∀ code : String, code ≠ "ENOENT" →
        env.stat (pathJoin D hostFileName) = .err code →
        isFunctionProject env D = .error code) := by
  refine ⟨fun h => ?_, fun s hs hfile => ?_, fun code hne h => ?_⟩ <;>
    rw [isFunctionProject_eq_stat] <;> simp_all

/-- Witness for C3 at concrete environments: a missing `host.json`, a
regular-file `host.json`, and a permission-denied stat. -/
theorem c3_isFunctionProject_stat_cases_witness :
    isFunctionProject baseEnv "/proj" = .ok false
    ∧ isFunctionProject allFilesEnv "/proj" = .ok true
    ∧ isFunctionProject deniedEnv "/proj" = .error "EACCES" :=
  ⟨(c3_isFunctionProject_stat_cases baseEnv "/proj").1 rfl,
   (c3_isFunctionProject_stat_cases allFilesEnv "/proj").2.1 ⟨true⟩ rfl rfl,
   (c3_isFunctionProject_stat_cases deniedEnv "/proj").2.2 "EACCES" (by decide) rfl⟩

/-- C4: with exactly one discovered candidate, `getFunctionsProject`
returns that candidate whether or not `host.json` exists beside it — the
marker probe runs but its boolean result is ignored (only a non-`ENOENT`
stat rejection could still change the outcome, which is why that case is
excluded by hypothesis). -/
theorem c4_single_candidate_shortcut (env : Env) (file folderPath c : String)
    (hfolder : env.getWorkspaceFolder file = some folderPath)
    (hcand : projectFiles env folderPath = [c])
    (hstat : ∀ code, env.stat (pathJoin (dirname c) hostFileName) = .err code →
      code = "ENOENT") :
    getFunctionsProject env file = .ok (some c) := by
  obtain ⟨b, hb⟩ := isFunctionProject_ok_of_stat env (dirname c) hstat
  unfold getFunctionsProject
  rw [hfolder]
  simp only [hcand, List.length_singleton, List.headD_cons]
  norm_num
  rw [hb]

/-- Witness for C4: the single candidate `/ws/app/App.csproj` is returned
both without any `host.json` and with `/ws/app/host.json` present. -/
theorem c4_single_candidate_shortcut_witness :
    getFunctionsProject singleNoMarkerEnv "/ws/app/f.cs" = .ok (some "/ws/app/App.csproj")
    ∧ getFunctionsProject singleWithMarkerEnv "/ws/app/f.cs" = .ok (some "/ws/app/App.csproj") :=
  ⟨c4_single_candidate_shortcut singleNoMarkerEnv "/ws/app/f.cs" "/ws" "/ws/app/App.csproj"
      rfl rfl
      (fun code h => by
        have h2 : StatResult.err "ENOENT" = .err code := h
        injection h2 with h3
        exact h3.symm),
   c4_single_candidate_shortcut singleWithMarkerEnv "/ws/app/f.cs" "/ws" "/ws/app/App.csproj"
      rfl rfl
      (fun code h => by
        have hstat :
            singleWithMarkerEnv.stat
              (pathJoin (dirname "/ws/app/App.csproj") hostFileName) =
              StatResult.stats ⟨true⟩ := by decide
        rw [hstat] at h
        exact StatResult.noConfusion h)⟩

/-- C5: with zero discovered candidates, `getFunctionsProject` returns
`undefined` and raises no error. -/
theorem c5_zero_candidates_absent (env : Env) (file folderPath : String)
    (hfolder : env.getWorkspaceFolder file = some folderPath)
    (hglob : env.globFiles (projFilter folderPath) = []) :
    getFunctionsProject env file = .ok none := by
  unfold getFunctionsProject
  rw [hfolder]
  simp [projectFiles, hglob]

/-- Witness for C5 at the empty workspace. -/
theorem c5_zero_candidates_absent_witness :
    getFunctionsProject baseEnv "/ws/x.cs" = .ok none :=
  c5_zero_candidates_absent baseEnv "/ws/x.cs" "/ws" rfl rfl

/-- C6: when the workspace-folder lookup yields no folder,
`getFunctionsProject` fails immediately with a thrown error whose value does
not depend on the filesystem collaborators at all — no glob or stat is
consulted. -/
theorem c6_no_workspace_folder_fails_fast (env : Env) (file : String)
    (h : env.getWorkspaceFolder file = none) :
    getFunctionsProject env file = .error "TypeError: cannot read property uri of undefined"
    ∧ ∀ env2 : Env, env2.getWorkspaceFolder file = none →
        getFunctionsProject env file = getFunctionsProject env2 file := by
  constructor
  · unfold getFunctionsProject
    rw [h]
  · intro env2 h2
    unfold getFunctionsProject
    rw [h, h2]

/-- Witness for C6 at a host with no workspace folder. -/
theorem c6_no_workspace_folder_fails_fast_witness :
    getFunctionsProject noWorkspaceEnv "/tmp/x.cs" =
      .error "TypeError: cannot read property uri of undefined"
    ∧ getFunctionsProject noWorkspaceEnv "/tmp/x.cs" =
        getFunctionsProject { noWorkspaceEnv with globFiles := fun _ => ["/q/Q.csproj"] }
          "/tmp/x.cs" :=
  ⟨(c6_no_workspace_folder_fails_fast noWorkspaceEnv "/tmp/x.cs" rfl).1,
   (c6_no_workspace_folder_fails_fast noWorkspaceEnv "/tmp/x.cs" rfl).2
     { noWorkspaceEnv with globFiles := fun _ => ["/q/Q.csproj"] } rfl⟩

/-- C2 counterexample: with the binding-type quick pick dismissed (no
direction resolved) but the other prompts answered, the insert exchange IS
issued — refuting the claim that a missing or cancelled binding-direction
prompt prevents the insert request. -/
theorem c2_insert_sent_despite_cancelled_binding_pick :
    cancelledBindingPickEnv.pickBindingType = none
    ∧ insertSqlInputBinding cancelledBindingPickEnv (some "/ws/f.cs") =
        .ok ⟨some ⟨"/ws/f.cs", "F", "T", .output, "CS"⟩, []⟩ :=
  ⟨rfl, rfl⟩

/-- C2 amended: the insert exchange is never issued unless a non-empty
function name, a non-empty target-object identifier, and a non-empty
connection-string-setting name have all been resolved; a binding direction
is always present in the request but a cancelled binding-type prompt does
not block it (the direction silently defaults to output). -/
theorem c2_insert_requires_resolved_values (env : Env) (uriArg : Option String)
    (outcome : InsertOutcome) (params : InsertSqlBindingParams)
    (hok : insertSqlInputBinding env uriArg = .ok outcome)
    (hsent : outcome.insertRequestSent = some params) :
    params.functionName ≠ "" ∧ params.objectName ≠ ""
    ∧ params.connectionStringSetting ≠ "" := by
  obtain ⟨uri, hcore⟩ := insertSqlInputBinding_ok_elim env uriArg outcome hok
  obtain ⟨hf, ho, hc, hp⟩ := insertResolved_sent env uri outcome params hcore hsent
  subst hp
  exact ⟨getD_ne_empty_of_falsyStr_false _ hf,
         getD_ne_empty_of_falsyStr_false _ ho,
         getD_ne_empty_of_falsyStr_false _ hc⟩

/-- Witness for C2 (amended) at a concrete completed run. -/
theorem c2_insert_requires_resolved_values_witness :
    (⟨"/ws/f.cs", "F", "T", .output, "CS"⟩ : InsertSqlBindingParams).functionName ≠ ""
    ∧ (⟨"/ws/f.cs", "F", "T", .output, "CS"⟩ : InsertSqlBindingParams).objectName ≠ ""
    ∧ (⟨"/ws/f.cs", "F", "T", .output, "CS"⟩ :
        InsertSqlBindingParams).connectionStringSetting ≠ "" :=
  c2_insert_requires_resolved_values cancelledBindingPickEnv (some "/ws/f.cs")
    ⟨some ⟨"/ws/f.cs", "F", "T", .output, "CS"⟩, []⟩
    ⟨"/ws/f.cs", "F", "T", .output, "CS"⟩ rfl rfl

/-- C7: a failure response of the listing exchange is thrown as an error
carrying the response's message, while a failure response of the insert
exchange only surfaces its message to the user and the call still returns
normally — the two paths are asymmetric. -/
theorem c7_remote_failure_asymmetry (env : Env) (uri : String) :
    (env.getAzureFunctionsResult.success = false →
      getAzureFunctions env (some uri) = .error env.getAzureFunctionsResult.errorMessage)
    ∧ (env.getAzureFunctionsResult.success = true →
       env.getAzureFunctionsResult.azureFunctions.length ≠ 0 →
       falsyStr env.pickFunctionName = false →
       falsyStr env.inputObjectName = false →
       falsyStr env.inputConnectionStringSetting = false →
       env.insertSqlBindingResult.success = false →
       ∃ params, insertSqlInputBinding env (some uri) =
         .ok ⟨some params, [env.insertSqlBindingResult.errorMessage]⟩) := by
  constructor
  · intro h
    unfold getAzureFunctions
    simp [h]
  · intro hsucc hne hf ho hc hfail
    exact ⟨{ filePath := uri
             functionName := env.pickFunctionName.getD ""
             objectName := env.inputObjectName.getD ""
             bindingType :=
               if env.pickBindingType = some "input" then BindingType.input
               else BindingType.output
             connectionStringSetting := env.inputConnectionStringSetting.getD "" },
           by
             show insertSqlInputBindingResolved env uri = _
             rw [insertResolved_eval env uri hsucc hne hf ho hc]
             simp [hfail]⟩

/-- Witness for C7: a failing listing response `boom` is thrown; a failing
insert response `nope` is only shown while the call completes. -/
theorem c7_remote_failure_asymmetry_witness :
    getAzureFunctions failingListingEnv (some "/ws/f.cs") =
      .error failingListingEnv.getAzureFunctionsResult.errorMessage
    ∧ ∃ params, insertSqlInputBinding failingInsertEnv (some "/ws/f.cs") =
        .ok ⟨some params, [failingInsertEnv.insertSqlBindingResult.errorMessage]⟩ :=
  ⟨(c7_remote_failure_asymmetry failingListingEnv "/ws/f.cs").1 rfl,
   (c7_remote_failure_asymmetry failingInsertEnv "/ws/f.cs").2 rfl (by decide)
     rfl rfl rfl rfl⟩

/-- C8 counterexample: the binding-type quick pick is a prompt whose value
can be absent, yet when it is dismissed (with the remaining prompts
answered) the insert request is still issued — so it is not true that every
absent prompt value aborts the flow before the insert exchange. -/
theorem c8_binding_pick_cancel_does_not_abort :
    cancelledBindingPickEnv2.pickBindingType = none
    ∧ insertSqlInputBinding cancelledBindingPickEnv2 (some "/ws/pets.cs") =
        .ok ⟨some ⟨"/ws/pets.cs", "GetPets", "dbo.pets", .output, "SqlConnectionString"⟩, []⟩ :=
  ⟨rfl, rfl⟩

/-- C8 amended: `getAzureFunctions` with an absent uri returns the empty
list without consulting the remote exchange, and `insertSqlInputBinding`
returns silently (no message, no error) without issuing the insert request
when the function-name, target-object, or connection-string-setting prompt
value is absent; a dismissed binding-type quick pick, however, does not
abort the flow. -/
theorem c8_absent_input_silent_noop (env : Env) (uri : String) :
    getAzureFunctions env none = .ok []
    ∧ (env.getAzureFunctionsResult.success = true →
       env.getAzureFunctionsResult.azureFunctions.length ≠ 0 →
       (falsyStr env.pickFunctionName = true ∨ falsyStr env.inputObjectName = true ∨
         falsyStr env.inputConnectionStringSetting = true) →
       insertSqlInputBinding env (some uri) = .ok ⟨none, []⟩) := by
  refine ⟨rfl, fun hsucc hne habs => ?_⟩
  unfold insertSqlInputBinding insertSqlInputBindingResolved getAzureFunctions
  rcases habs with h | h | h
  · simp [hsucc, hne, h]
  · cases hf : falsyStr env.pickFunctionName <;> simp [hsucc, hne, hf, h]
  · cases hf : falsyStr env.pickFunctionName
    · cases ho : falsyStr env.inputObjectName <;> simp [hsucc, hne, hf, ho, h]
    · simp [hsucc, hne, hf]

/-- Witness for C8 (amended): absent uri yields the empty list, and a
dismissed function-name pick aborts silently with no insert request. -/
theorem c8_absent_input_silent_noop_witness :
    getAzureFunctions cancelledFunctionPickEnv none = .ok []
    ∧ insertSqlInputBinding cancelledFunctionPickEnv (some "/ws/f.cs") = .ok ⟨none, []⟩ :=
  ⟨(c8_absent_input_silent_noop cancelledFunctionPickEnv "/ws/f.cs").1,
   (c8_absent_input_silent_noop cancelledFunctionPickEnv "/ws/f.cs").2 rfl (by decide)
     (Or.inl rfl)⟩

/-- C10: whenever a completed run issued the insert request, its binding
type is `input` exactly when the binding-type quick pick resolved to the
label `input`, and `output` for every other pick outcome — in particular a
dismissed pick (no selection) yields `output`. -/
theorem c10_binding_type_defaults_output (env : Env) (uriArg : Option String)
    (outcome : InsertOutcome) (params : InsertSqlBindingParams)
    (hok : insertSqlInputBinding env uriArg = .ok outcome)
    (hsent : outcome.insertRequestSent = some params) :
    (params.bindingType = BindingType.input ↔ env.pickBindingType = some "input")
    ∧ (env.pickBindingType = none → params.bindingType = BindingType.output) := by
  obtain ⟨uri, hcore⟩ := insertSqlInputBinding_ok_elim env uriArg outcome hok
  obtain ⟨-, -, -, hp⟩ := insertResolved_sent env uri outcome params hcore hsent
  subst hp
  constructor
  · by_cases h : env.pickBindingType = some "input" <;> simp [h]
  · intro h
    simp [h]

/-- Witness for C10 at a run whose binding-type pick was dismissed: the
request went out with binding type `output`. -/
theorem c10_binding_type_defaults_output_witness :
    ((⟨"/ws/pets.cs", "GetPets", "dbo.pets", .output, "SqlConnectionString"⟩ :
        InsertSqlBindingParams).bindingType = BindingType.input
      ↔ cancelledBindingPickEnv2.pickBindingType = some "input")
    ∧ (cancelledBindingPickEnv2.pickBindingType = none →
        (⟨"/ws/pets.cs", "GetPets", "dbo.pets", .output, "SqlConnectionString"⟩ :
          InsertSqlBindingParams).bindingType = BindingType.output) :=
  c10_binding_type_defaults_output cancelledBindingPickEnv2 (some "/ws/pets.cs")
    ⟨some ⟨"/ws/pets.cs", "GetPets", "dbo.pets", .output, "SqlConnectionString"⟩, []⟩
    ⟨"/ws/pets.cs", "GetPets", "dbo.pets", .output, "SqlConnectionString"⟩ rfl rfl

/-- C9: the workspace root has every backslash separator turned into a
forward slash before globbing; glob-special characters in the root are
escaped (shown concretely for a root containing backslashes and the
characters left bracket, right bracket, and star); and every candidate the
function returns is a path produced by the glob on that normalized, escaped
filter and passed back through the platform-native path conversion. -/
theorem c9_glob_normalization_and_escaping :
    (∀ s : String, '\\' ∉ (replaceBackslashes s).data)
    ∧ projFilter "C:\\ws[1]\\a*b" = "C:/ws\\[1\\]/a\\*b/**/*.csproj"
    ∧ ∀ (env : Env) (file folderPath c : String),
        env.getWorkspaceFolder file = some folderPath →
        getFunctionsProject env file = .ok (some c) →
        ∃ p ∈ env.globFiles (projFilter folderPath), c = env.pathResolve p := by
  refine ⟨?_, rfl, ?_⟩
  · intro s hmem
    have hmem2 : '\\' ∈ s.data.map (fun c => if c = '\\' then '/' else c) := hmem
    rw [List.mem_map] at hmem2
    obtain ⟨a, -, ha⟩ := hmem2
    by_cases h : a = '\\'
    · rw [if_pos h] at ha
      exact absurd ha (by decide)
    · rw [if_neg h] at ha
      exact h ha
  · intro env file folderPath c hfolder hres
    simp only [getFunctionsProject, hfolder] at hres
    split at hres
    · injection hres with h
      have hc := findFirstFunctionsProject_mem env _ c h
      obtain ⟨p, hp, hpc⟩ := List.mem_map.mp hc
      exact ⟨p, hp, hpc.symm⟩
    · split at hres
      · exact absurd hres (by simp)
      · rename_i hgt hzero
        split at hres
        · exact absurd hres (by simp)
        · injection hres with h
          injection h with h
          have hlen : (projectFiles env folderPath).length = 1 := by omega
          obtain ⟨a, ha⟩ := List.length_eq_one.mp hlen
          rw [ha] at h
          have hmem : a ∈ (env.globFiles (projFilter folderPath)).map env.pathResolve := by
            rw [← projectFiles, ha]
            exact List.mem_singleton_self a
          obtain ⟨p, hp, hpc⟩ := List.mem_map.mp hmem
          refine ⟨p, hp, ?_⟩
          rw [← h, ← hpc]
          rfl

/-- Witness for C9: in the two-candidate scenario the returned candidate is
one of the glob results converted by the native path conversion. -/
theorem c9_glob_normalization_and_escaping_witness :
    '\\' ∉ (replaceBackslashes "C:\\ws").data
    ∧ ∃ p ∈ markerScenarioEnv.globFiles (projFilter "/ws"),
        "/ws/a/Foo.csproj" = markerScenarioEnv.pathResolve p :=
  ⟨c9_glob_normalization_and_escaping.1 "C:\\ws",
   c9_glob_normalization_and_escaping.2.2 markerScenarioEnv "/ws/b/f.cs" "/ws"
     "/ws/a/Foo.csproj" rfl rfl⟩

end AzureFunctionsService
